import Mathlib

/-!
Verification of the Riding Club Championships server emulator (`Server.py`)
against its natural-language specification.

Byte strings are modelled as lists of naturals, each element a byte value
below 256.  The Python struct pack/unpack little-endian fixed-width codecs
become explicit arithmetic on Nat and Int; Python floats are carried as
their IEEE-754 single-precision bit patterns (a Nat below 2 to the 32),
since the server only ever moves them through struct.pack as 4 opaque
bytes.
-/

/-- Model of encode_varint from Server.py: 7 data bits per byte,
little-endian, continuation (high) bit set on all but the terminal byte. -/
def encode_varint (value : Nat) : List Nat :=
  if 128 ≤ value then
    (value % 128 + 128) :: encode_varint (value / 128)
  else
    [value % 128]
termination_by value
decreasing_by exact Nat.div_lt_self (by omega) (by omega)

/-- Reference VarInt decoder, following spec section 4.1: read bytes until one
has its high bit clear, accumulating 7 bits per byte little-endian.  (The
the 5-byte cap of the spec only affects malformed inputs that no claim
exercises.) -/
def read_varint : List Nat → Option (Nat × List Nat)
  | [] => none
  | b :: rest =>
    if b % 256 < 128 then some (b % 256, rest)
    else
      match read_varint rest with
      | some (v, rem) => some (b % 128 + 128 * v, rem)
      | none => none

theorem read_encode_varint (n : Nat) : ∀ rest : List Nat,
    read_varint (encode_varint n ++ rest) = some (n, rest) := by
  induction n using Nat.strong_induction_on with
  | _ n ih =>
    intro rest
    rw [encode_varint]
    by_cases h : 128 ≤ n
    · have hrec := ih (n / 128) (Nat.div_lt_self (by omega) (by omega)) rest
      simp only [if_pos h, List.cons_append, read_varint, hrec]
      have h1 : ¬ (n % 128 + 128) % 256 < 128 := by omega
      simp only [if_neg h1]
      have h2 : n % 128 + 128 * (n / 128) = n := by omega
      simp [Nat.add_mod_left, h2]
    · have h0 : n % 128 % 256 < 128 := by omega
      simp only [if_neg h, List.cons_append, List.nil_append, read_varint, if_pos h0]
      have h1 : n % 128 % 256 = n := by omega
      simp [h1]

theorem encode_varint_length : ∀ (k n : Nat), n < 128 ^ k → 1 ≤ k →
    (encode_varint n).length ≤ k := by
  intro k
  induction k with
  | zero => omega
  | succ k ih =>
    intro n hn _
    rw [encode_varint]
    by_cases h : 128 ≤ n
    · have hk : 1 ≤ k := by
        by_contra hk0
        have : k = 0 := by omega
        subst this
        simp [pow_succ] at hn
        omega
      have hdiv : n / 128 < 128 ^ k := by
        have hpow : 128 ^ (k + 1) = 128 ^ k * 128 := by ring
        rw [hpow] at hn
        omega
      simp only [if_pos h, List.length_cons]
      have := ih (n / 128) hdiv hk
      omega
    · simp [if_neg h]

/-- A byte list is a valid frame when it starts with a VarInt whose value
equals the number of bytes that follow it. -/
def is_valid_frame (bs : List Nat) : Bool :=
  match read_varint bs with
  | some (n, rest) => rest.length == n
  | none => false

/-- Frame wrapper used on every framed write in `Server.py`:
`VarInt(len(content)) + content`. -/
def frame (content : List Nat) : List Nat :=
  encode_varint content.length ++ content

theorem is_valid_frame_frame (content : List Nat) :
    is_valid_frame (frame content) = true := by
  simp [is_valid_frame, frame, read_encode_varint]

/-! ## Fixed-width little-endian codecs (`struct.pack`/`struct.unpack`) -/

/-- Little-endian u16 encoding (Python struct.pack with format <H). -/
def pack_u16 (v : Nat) : List Nat := [v % 256, v / 256 % 256]

/-- Little-endian u32 encoding (Python struct.pack with format <I). -/
def pack_u32 (v : Nat) : List Nat :=
  [v % 256, v / 256 % 256, v / 65536 % 256, v / 16777216 % 256]

/-- Little-endian i32 encoding (Python struct.pack with format <i):
two-complement little-endian bytes of a signed 32-bit value. -/
def pack_i32 (v : Int) : List Nat := pack_u32 (v % 4294967296).toNat

/-- Little-endian f32 encoding (Python struct.pack with format <f), given
the IEEE-754 single-precision bit pattern of the float. -/
def pack_f32 (bits : Nat) : List Nat := pack_u32 bits

def read_u8 : List Nat → Option (Nat × List Nat)
  | [] => none
  | b :: rest => some (b, rest)

def read_u16 : List Nat → Option (Nat × List Nat)
  | b0 :: b1 :: rest => some (b0 + 256 * b1, rest)
  | _ => none

def read_u32 : List Nat → Option (Nat × List Nat)
  | b0 :: b1 :: b2 :: b3 :: rest =>
      some (b0 + 256 * b1 + 65536 * b2 + 16777216 * b3, rest)
  | _ => none

/-- Reinterpret an unsigned 32-bit value as a signed two-complement Int. -/
def to_i32 (v : Nat) : Int :=
  if v < 2147483648 then (v : Int) else (v : Int) - 4294967296

def read_i32 (bs : List Nat) : Option (Int × List Nat) :=
  (read_u32 bs).map fun p => (to_i32 p.1, p.2)

def read_u32_list : Nat → List Nat → Option (List Nat × List Nat)
  | 0, bs => some ([], bs)
  | n + 1, bs =>
    (read_u32 bs).bind fun p =>
      (read_u32_list n p.2).map fun q => (p.1 :: q.1, q.2)

theorem read_pack_u16 (v : Nat) (h : v < 65536) (rest : List Nat) :
    read_u16 (pack_u16 v ++ rest) = some (v, rest) := by
  simp only [pack_u16, List.cons_append, List.nil_append, read_u16]
  congr 1
  congr 1
  omega

theorem read_pack_u32 (v : Nat) (h : v < 4294967296) (rest : List Nat) :
    read_u32 (pack_u32 v ++ rest) = some (v, rest) := by
  simp only [pack_u32, List.cons_append, List.nil_append, read_u32]
  congr 1
  congr 1
  omega

theorem read_pack_i32 (v : Int) (h1 : -2147483648 ≤ v) (h2 : v < 2147483648)
    (rest : List Nat) : read_i32 (pack_i32 v ++ rest) = some (v, rest) := by
  have hlt : (v % 4294967296).toNat < 4294967296 := by omega
  have hout : to_i32 (v % 4294967296).toNat = v := by
    simp only [to_i32]
    split <;> omega
  simp [pack_i32, read_i32, read_pack_u32 _ hlt, hout]

/-! ## CRC32 (`calculate_crc32_hash`, zlib polynomial 0xEDB88320) -/

/-- One shift step of the reflected CRC32: shift right, xor the polynomial
when the low bit was set. -/
def crc32_step (c : Nat) : Nat :=
  if c % 2 = 1 then Nat.xor 3988292384 (c / 2) else c / 2

/-- The CRC32 table entry for index `n` (8 shift steps). -/
def crc32_table (n : Nat) : Nat :=
  crc32_step (crc32_step (crc32_step (crc32_step
    (crc32_step (crc32_step (crc32_step (crc32_step n)))))))

def crc32_update (crc byte : Nat) : Nat :=
  Nat.xor (crc / 256) (crc32_table (Nat.xor (crc % 256) (byte % 256)))

/-- zlib `crc32` over a byte list, as an unsigned 32-bit value. -/
def crc32_list (bytes : List Nat) : Nat :=
  Nat.xor (bytes.foldl crc32_update 4294967295) 4294967295

/-- UTF-8 bytes of a string (all IDs in the server are ASCII). -/
def str_bytes (s : String) : List Nat := s.data.map Char.toNat

/-- Model of calculate_crc32_hash from Server.py. -/
def calculate_crc32_hash (s : String) : Nat := crc32_list (str_bytes s)

/-- Sanity oracle from spec section 4.8: the CRC32 of logic_main is
3317978623. -/
theorem crc32_logic_main : calculate_crc32_hash ("logic_main") = 3317978623 := by
  decide

/-! ## Reward / Price / Bonuses inline records (`create_reward_data`,
`create_price_data`, `create_bonuses_data`) -/

/-- An item in a reward list: create_reward_data accepts either an ID
string (here its UTF-8 bytes), which it hashes with CRC32, or an already
numeric u32 hash. -/
inductive RewardItem where
  | strItem (bytes : List Nat)
  | numItem (hash : Nat)
deriving DecidableEq

/-- The u32 written for one reward item (string items are CRC32-hashed). -/
def reward_item_hash : RewardItem → Nat
  | .strItem bs => crc32_list bs
  | .numItem h => h

/-- Model of create_reward_data from Server.py: bitfield byte 0x80 (the
money bit is always set), coins i32, skill-tickets i32, XP i32, AP i32,
VarInt item count, then one u32 hash per item.  No length prefix is
emitted. -/
def create_reward_data (coins skill_tickets xp ap : Int)
    (items : List RewardItem) : List Nat :=
  [128] ++ pack_i32 coins ++ pack_i32 skill_tickets ++ pack_i32 xp ++
    pack_i32 ap ++ encode_varint items.length ++
    (items.map fun i => pack_u32 (reward_item_hash i)).flatten

/-- Model of create_price_data from Server.py: bitfield byte (0x80 iff a
sale is present), coins i32, skill-tickets i32, then the f32 sale only if
present.  The sale float is carried as its IEEE-754 bit pattern.  No length
prefix. -/
def create_price_data (coins skill_tickets : Int) (sale : Option Nat) :
    List Nat :=
  [if sale = none then 0 else 128] ++ pack_i32 coins ++
    pack_i32 skill_tickets ++
    (match sale with
     | none => []
     | some bits => pack_f32 bits)

/-- Model of create_bonuses_data from Server.py: five f32 rates (bit
patterns) then seven i32 values, in the documented field order.  No length
prefix. -/
def create_bonuses_data (skill_tickets_rate xp_rate loot_rate ap_cost_rate
    ap_restore_rate : Nat) (ap_max strength timing speed acceleration
    stamina obedience : Int) : List Nat :=
  pack_f32 skill_tickets_rate ++ pack_f32 xp_rate ++ pack_f32 loot_rate ++
    pack_f32 ap_cost_rate ++ pack_f32 ap_restore_rate ++
    pack_i32 ap_max ++ pack_i32 strength ++ pack_i32 timing ++
    pack_i32 speed ++ pack_i32 acceleration ++ pack_i32 stamina ++
    pack_i32 obedience

/-- Decoded form of a Reward record, per the documented field order. -/
structure RewardFields where
  bitfield : Nat
  coins : Int
  skill_tickets : Int
  xp : Int
  ap : Int
  items : List Nat
deriving DecidableEq

/-- Reference Reward decoder: bit-field byte, coins i32, skill-tickets i32,
XP i32, AP i32, VarInt item count, then one u32 hash per item. -/
def read_reward (bs : List Nat) : Option (RewardFields × List Nat) :=
  (read_u8 bs).bind fun p0 =>
  (read_i32 p0.2).bind fun p1 =>
  (read_i32 p1.2).bind fun p2 =>
  (read_i32 p2.2).bind fun p3 =>
  (read_i32 p3.2).bind fun p4 =>
  (read_varint p4.2).bind fun p5 =>
  (read_u32_list p5.1 p5.2).map fun p6 =>
  (⟨p0.1, p1.1, p2.1, p3.1, p4.1, p6.1⟩, p6.2)

/-- Decoded form of a Price record. -/
structure PriceFields where
  bitfield : Nat
  coins : Int
  skill_tickets : Int
  sale : Option Nat
deriving DecidableEq

/-- Reference Price decoder: bit-field byte (high bit means a sale is
present),
coins i32, skill-tickets i32, then the f32 sale only if the bit is set. -/
def read_price (bs : List Nat) : Option (PriceFields × List Nat) :=
  (read_u8 bs).bind fun p0 =>
  (read_i32 p0.2).bind fun p1 =>
  (read_i32 p1.2).bind fun p2 =>
  if p0.1.testBit 7 then
    (read_u32 p2.2).map fun p3 => (⟨p0.1, p1.1, p2.1, some p3.1⟩, p3.2)
  else
    some (⟨p0.1, p1.1, p2.1, none⟩, p2.2)

/-- Decoded form of a Bonuses record (floats as bit patterns). -/
structure BonusesFields where
  skill_tickets_rate : Nat
  xp_rate : Nat
  loot_rate : Nat
  ap_cost_rate : Nat
  ap_restore_rate : Nat
  ap_max : Int
  strength : Int
  timing : Int
  speed : Int
  acceleration : Int
  stamina : Int
  obedience : Int
deriving DecidableEq

/-- Reference Bonuses decoder: five f32 rates then seven i32 values. -/
def read_bonuses (bs : List Nat) : Option (BonusesFields × List Nat) :=
  (read_u32 bs).bind fun p0 =>
  (read_u32 p0.2).bind fun p1 =>
  (read_u32 p1.2).bind fun p2 =>
  (read_u32 p2.2).bind fun p3 =>
  (read_u32 p3.2).bind fun p4 =>
  (read_i32 p4.2).bind fun p5 =>
  (read_i32 p5.2).bind fun p6 =>
  (read_i32 p6.2).bind fun p7 =>
  (read_i32 p7.2).bind fun p8 =>
  (read_i32 p8.2).bind fun p9 =>
  (read_i32 p9.2).bind fun p10 =>
  (read_i32 p10.2).map fun p11 =>
  (⟨p0.1, p1.1, p2.1, p3.1, p4.1, p5.1, p6.1, p7.1, p8.1, p9.1, p10.1,
    p11.1⟩, p11.2)

theorem read_u32_list_packed (hashes : List Nat)
    (hh : ∀ h ∈ hashes, h < 4294967296) (rest : List Nat) :
    read_u32_list hashes.length
      ((hashes.map pack_u32).flatten ++ rest) = some (hashes, rest) := by
  induction hashes with
  | nil => simp [read_u32_list]
  | cons a t ih =>
    have ha : a < 4294967296 := hh a (List.mem_cons_self a t)
    have ht : ∀ h ∈ t, h < 4294967296 := fun h hm => hh h (List.mem_cons_of_mem a hm)
    simp only [List.map_cons, List.flatten_cons, List.length_cons,
      read_u32_list, List.append_assoc, read_pack_u32 a ha]
    simp [ih ht]

theorem crc32_step_lt (c : Nat) (h : c < 2 ^ 32) : crc32_step c < 2 ^ 32 := by
  unfold crc32_step
  split
  · exact Nat.xor_lt_two_pow (by norm_num) (by omega)
  · omega

theorem crc32_table_lt (n : Nat) (h : n < 2 ^ 32) : crc32_table n < 2 ^ 32 := by
  unfold crc32_table
  exact crc32_step_lt _ (crc32_step_lt _ (crc32_step_lt _ (crc32_step_lt _
    (crc32_step_lt _ (crc32_step_lt _ (crc32_step_lt _ (crc32_step_lt _ h)))))))

theorem crc32_update_lt (crc byte : Nat) (h : crc < 2 ^ 32) :
    crc32_update crc byte < 2 ^ 32 := by
  unfold crc32_update
  refine Nat.xor_lt_two_pow (by omega) (crc32_table_lt _ ?_)
  have hx : Nat.xor (crc % 256) (byte % 256) < 2 ^ 8 :=
    Nat.xor_lt_two_pow (by omega) (by omega)
  omega

theorem crc32_foldl_lt (bytes : List Nat) : ∀ acc, acc < 2 ^ 32 →
    bytes.foldl crc32_update acc < 2 ^ 32 := by
  induction bytes with
  | nil => intro acc h; simpa using h
  | cons a t ih => intro acc h; exact ih _ (crc32_update_lt _ _ h)

theorem crc32_list_lt (bytes : List Nat) : crc32_list bytes < 2 ^ 32 := by
  unfold crc32_list
  exact Nat.xor_lt_two_pow (crc32_foldl_lt bytes _ (by norm_num)) (by norm_num)

theorem reward_roundtrip (coins skill_tickets xp ap : Int)
    (items : List RewardItem)
    (hc1 : -2147483648 ≤ coins) (hc2 : coins < 2147483648)
    (hs1 : -2147483648 ≤ skill_tickets) (hs2 : skill_tickets < 2147483648)
    (hx1 : -2147483648 ≤ xp) (hx2 : xp < 2147483648)
    (ha1 : -2147483648 ≤ ap) (ha2 : ap < 2147483648)
    (hi : ∀ i ∈ items, reward_item_hash i < 4294967296) (rest : List Nat) :
    read_reward (create_reward_data coins skill_tickets xp ap items ++ rest) =
      some (⟨128, coins, skill_tickets, xp, ap,
        items.map reward_item_hash⟩, rest) := by
  have hflat : (items.map fun i => pack_u32 (reward_item_hash i)) =
      (items.map reward_item_hash).map pack_u32 := by
    simp [List.map_map, Function.comp]
  have hh : ∀ h ∈ items.map reward_item_hash, h < 4294967296 := by
    intro h hm
    obtain ⟨i, him, rfl⟩ := List.mem_map.mp hm
    exact hi i him
  have hlist := read_u32_list_packed (items.map reward_item_hash) hh rest
  unfold create_reward_data read_reward
  rw [hflat]
  simp [read_u8, read_pack_i32 coins hc1 hc2,
    read_pack_i32 skill_tickets hs1 hs2, read_pack_i32 xp hx1 hx2,
    read_pack_i32 ap ha1 ha2, read_encode_varint]
  simpa using hlist

theorem price_roundtrip (coins skill_tickets : Int) (sale : Option Nat)
    (hc1 : -2147483648 ≤ coins) (hc2 : coins < 2147483648)
    (hs1 : -2147483648 ≤ skill_tickets) (hs2 : skill_tickets < 2147483648)
    (hsale : ∀ b ∈ sale, b < 4294967296) (rest : List Nat) :
    read_price (create_price_data coins skill_tickets sale ++ rest) =
      some (⟨if sale = none then 0 else 128, coins, skill_tickets, sale⟩,
        rest) := by
  cases sale with
  | none =>
    unfold create_price_data read_price
    simp [read_u8, read_pack_i32 coins hc1 hc2,
      read_pack_i32 skill_tickets hs1 hs2, Nat.testBit]
  | some bits =>
    have hb : bits < 4294967296 := hsale bits rfl
    unfold create_price_data read_price
    simp [read_u8, read_pack_i32 coins hc1 hc2,
      read_pack_i32 skill_tickets hs1 hs2, pack_f32, read_pack_u32 bits hb,
      Nat.testBit]

set_option maxHeartbeats 1000000 in
theorem bonuses_roundtrip (r1 r2 r3 r4 r5 : Nat)
    (v1 v2 v3 v4 v5 v6 v7 : Int)
    (hr1 : r1 < 4294967296) (hr2 : r2 < 4294967296) (hr3 : r3 < 4294967296)
    (hr4 : r4 < 4294967296) (hr5 : r5 < 4294967296)
    (hv1a : -2147483648 ≤ v1) (hv1b : v1 < 2147483648)
    (hv2a : -2147483648 ≤ v2) (hv2b : v2 < 2147483648)
    (hv3a : -2147483648 ≤ v3) (hv3b : v3 < 2147483648)
    (hv4a : -2147483648 ≤ v4) (hv4b : v4 < 2147483648)
    (hv5a : -2147483648 ≤ v5) (hv5b : v5 < 2147483648)
    (hv6a : -2147483648 ≤ v6) (hv6b : v6 < 2147483648)
    (hv7a : -2147483648 ≤ v7) (hv7b : v7 < 2147483648) (rest : List Nat) :
    read_bonuses (create_bonuses_data r1 r2 r3 r4 r5 v1 v2 v3 v4 v5 v6 v7 ++
        rest) =
      some (⟨r1, r2, r3, r4, r5, v1, v2, v3, v4, v5, v6, v7⟩, rest) := by
  unfold create_bonuses_data read_bonuses
  simp [List.append_assoc, pack_f32, read_pack_u32 r1 hr1,
    read_pack_u32 r2 hr2, read_pack_u32 r3 hr3, read_pack_u32 r4 hr4,
    read_pack_u32 r5 hr5, read_pack_i32 v1 hv1a hv1b,
    read_pack_i32 v2 hv2a hv2b, read_pack_i32 v3 hv3a hv3b,
    read_pack_i32 v4 hv4a hv4b, read_pack_i32 v5 hv5a hv5b,
    read_pack_i32 v6 hv6a hv6b, read_pack_i32 v7 hv7a hv7b]

/-! ## Card encoders (`create_logicmain_card_data` and friends)

Python float literals appear on the wire as their IEEE-754 single-precision
bit patterns; the named constants below record those patterns. -/

/-- IEEE-754 single bits of `0.0`. -/
def f32_0_0 : Nat := 0
/-- IEEE-754 single bits of `0.9`. -/
def f32_0_9 : Nat := 1063675494
/-- IEEE-754 single bits of `1.0`. -/
def f32_1_0 : Nat := 1065353216
/-- IEEE-754 single bits of `1.1`. -/
def f32_1_1 : Nat := 1066192077
/-- IEEE-754 single bits of `1.2`. -/
def f32_1_2 : Nat := 1067030938
/-- IEEE-754 single bits of `1.5`. -/
def f32_1_5 : Nat := 1069547520
/-- IEEE-754 single bits of `1.8`. -/
def f32_1_8 : Nat := 1073060454
/-- IEEE-754 single bits of `2.0`. -/
def f32_2_0 : Nat := 1073741824
/-- IEEE-754 single bits of `10.0`. -/
def f32_10_0 : Nat := 1092616192
/-- IEEE-754 single bits of `80.0`. -/
def f32_80_0 : Nat := 1117782016
/-- IEEE-754 single bits of `100.0`. -/
def f32_100_0 : Nat := 1120403456
/-- IEEE-754 single bits of `120.0`. -/
def f32_120_0 : Nat := 1123024896
/-- IEEE-754 single bits of `300.0`. -/
def f32_300_0 : Nat := 1133903872

/-- Encode a VarInt-length-prefixed string (`Igor.Write.String`). -/
def write_str (s : String) : List Nat :=
  encode_varint (str_bytes s).length ++ str_bytes s

/-- Model of create_logicmain_card_data from Server.py: category 0x15, the
ID string logic_main, four i32 tuning values, two Rewards, the level-XP
list, a f32, a Price, the flags list, the literal sentinel FF F0, and
Bonuses. -/
def create_logicmain_card_data : List Nat :=
  [21] ++ write_str ("logic_main") ++
    pack_i32 100 ++ pack_i32 10 ++ pack_i32 20 ++ pack_i32 20 ++
    create_reward_data 100 1 0 25 [.strItem (str_bytes ("fred"))] ++
    create_reward_data 100 0 100 25 [.strItem (str_bytes ("baguette"))] ++
    encode_varint 10 ++
    (([100, 250, 500, 1000, 2000, 4000, 8000, 16000, 32000,
       64000] : List Int).map pack_i32).flatten ++
    pack_f32 f32_1_0 ++
    create_price_data 100 0 none ++
    encode_varint 1 ++ write_str ("snow") ++
    [255, 240] ++
    create_bonuses_data f32_1_5 f32_1_2 f32_2_0 f32_1_0 f32_100_0
      10000 1 1 1 1 1 1

/-- Model of create_logic_action_points_card_data from Server.py: category
0x16, the ID string logic_action_points, seven u32 values, one f32,
sentinel FF F0, and Bonuses. -/
def create_logic_action_points_card_data : List Nat :=
  [22] ++ write_str ("logic_action_points") ++
    pack_u32 100 ++ pack_u32 5 ++ pack_u32 10 ++ pack_u32 1 ++
    pack_u32 300 ++ pack_u32 2 ++ pack_u32 600 ++
    pack_f32 f32_80_0 ++
    [255, 240] ++
    create_bonuses_data f32_1_2 f32_1_1 f32_1_8 f32_0_9 f32_120_0
      12000 2 2 2 2 2 2

/-- Model of create_logic_chat_card_data from Server.py: category 0x1E, the
ID string logic_chat, i32 message limit, two f32 windows, then the list of
star player IDs (read from the live user database, hence a parameter here;
the code substitutes the one-element list 1 when the database is empty). -/
def create_logic_chat_card_data (star_players : List Nat) : List Nat :=
  [30] ++ write_str ("logic_chat") ++
    pack_i32 10 ++ pack_f32 f32_10_0 ++ pack_f32 f32_300_0 ++
    encode_varint star_players.length ++
    (star_players.map pack_u32).flatten

/-- Model of create_logic_skins_card_data from Server.py: category 0x11,
the ID string skins, three empty string lists, then one horse-hair skin of
8 f32 color channels (red main, green spec). -/
def create_logic_skins_card_data : List Nat :=
  [17] ++ write_str ("skins") ++
    encode_varint 0 ++ encode_varint 0 ++ encode_varint 0 ++
    encode_varint 1 ++
    pack_f32 f32_1_0 ++ pack_f32 f32_0_0 ++ pack_f32 f32_0_0 ++
    pack_f32 f32_1_0 ++
    pack_f32 f32_0_0 ++ pack_f32 f32_1_0 ++ pack_f32 f32_0_0 ++
    pack_f32 f32_1_0

/-- Content of the unsolicited catalogue push (send_cards_to_service):
ServiceID 101, FunctionID 0 (Recv_Init), VarInt card count 4, then the four
card encodings. -/
def cards_message_content (star_players : List Nat) : List Nat :=
  [101, 0] ++ encode_varint 4 ++
    create_logicmain_card_data ++
    create_logic_action_points_card_data ++
    create_logic_chat_card_data star_players ++
    create_logic_skins_card_data

/-- The full catalogue push as written to the socket: VarInt length prefix
plus the content. -/
def cards_message (star_players : List Nat) : List Nat :=
  frame (cards_message_content star_players)

/-! ## Reply builders -/

/-- Model of handle_generic_service from Server.py: the reply is the two
RPCID bytes followed by a status byte 0 — written to the socket as-is, with
no VarInt length prefix.  The service_id and data arguments are accepted
(as in the Python signature) but unused. -/
def handle_generic_service (service_id : Nat) (rpc_id : Nat)
    (data : List Nat) : List Nat :=
  pack_u16 rpc_id ++ [0]

/-- Model of create_error_response from Server.py: RPCID, status 255, u32
LE error-string length, error bytes — no VarInt length prefix. -/
def create_error_response (rpc_id : Nat) (error_message : List Nat) :
    List Nat :=
  pack_u16 rpc_id ++ [255] ++ pack_u32 error_message.length ++ error_message

/-- Content of the login success reply built in handle_login_service:
ServiceID 100, FunctionID 0, RPCID u16 LE, status 0, player-id u32 LE,
user-state byte, access-level byte. -/
def login_success_content (rpc_id player_id user_state access_level : Nat) :
    List Nat :=
  [100, 0] ++ pack_u16 rpc_id ++ [0] ++ pack_u32 player_id ++
    [user_state, access_level]

/-- The login success reply as written: VarInt length prefix plus content. -/
def login_success_response (rpc_id player_id user_state access_level : Nat) :
    List Nat :=
  frame (login_success_content rpc_id player_id user_state access_level)

/-- Model of create_login_error_response from Server.py: framed ServiceID
100, FunctionID 0, RPCID, status 255, u32 LE string length, error bytes. -/
def create_login_error_response (rpc_id : Nat) (error_message : List Nat) :
    List Nat :=
  frame ([100, 0] ++ pack_u16 rpc_id ++ [255] ++
    pack_u32 error_message.length ++ error_message)

/-! ## Identity store (class UserDatabase)

The SQLite store is modelled as an in-memory list of rows.  The player id
is the AUTOINCREMENT primary key (next_id plays the role of the counter,
starting at 1); CURRENT_TIMESTAMP becomes an explicit now argument.  The
stored access_token_hash is modelled by the token value itself (SHA-256 is
opaque to every claim). -/

/-- An access token as the login handler stores it: either the hex blob
parsed from the request, or the synthesized fallback token derived from the
raw payload. -/
inductive AccessToken where
  | hexTok (bytes : List Nat)
  | fbTok (raw : List Nat)
deriving DecidableEq

/-- One row of the users table. -/
structure UserRec where
  player_id : Nat
  source_type : String
  source_id : String
  token_hash : AccessToken
  user_state : Nat
  access_level : Nat
  created_at : Nat
  last_login : Nat
deriving DecidableEq

/-- The database: users table, AUTOINCREMENT counter, player_data table
(player-id, name). -/
structure DB where
  users : List UserRec
  next_id : Nat
  names : List (Nat × String)
deriving DecidableEq

/-- A freshly initialised database (init_database). -/
def db0 : DB := ⟨[], 1, []⟩

/-- The SQL lookup predicate on source_type and source_id. -/
def user_key_matches (stype sid : String) (u : UserRec) : Bool :=
  u.source_type == stype && u.source_id == sid

/-- The SQL UPDATE row transformer: set last_login to the current time and
replace the access-token hash, on the row keyed by player_id. -/
def update_login_row (pid now : Nat) (token : AccessToken) (u : UserRec) :
    UserRec :=
  if u.player_id == pid then { u with last_login := now, token_hash := token }
  else u

/-- Result of get_or_create_user: the returned player-id and user-data
pair plus the committed database. -/
structure GOCResult where
  pid : Nat
  user : UserRec
  db : DB
deriving DecidableEq

/-- Model of UserDatabase.get_or_create_user from Server.py.  On a key hit
the id and data of the existing row are returned and only last_login and
the token hash are updated; on a miss a new row is inserted with defaults
user_state 1 and access_level 0, plus a player_data row whose name is
Player followed by the new id. -/
def get_or_create_user (db : DB) (now : Nat) (stype sid : String)
    (token : AccessToken) : GOCResult :=
  match db.users.find? (user_key_matches stype sid) with
  | some u =>
      ⟨u.player_id, u,
        { db with
          users := db.users.map (update_login_row u.player_id now token) }⟩
  | none =>
      let pid := db.next_id
      let newUser : UserRec := ⟨pid, stype, sid, token, 1, 0, now, now⟩
      ⟨pid, newUser,
        ⟨db.users ++ [newUser], pid + 1,
          db.names ++ [(pid, "Player" ++ Nat.repr pid)]⟩⟩

/-! ## Login handler (handle_login_service) -/

/-- Lower bound of the plausible Steam-ID window checked by the handler. -/
def steam_id_min : Nat := 76561197960265728
/-- Upper bound of the plausible Steam-ID window checked by the handler. -/
def steam_id_max : Nat := 76561297960265728

/-- The decimal-string source-id used for a plausible Steam ID. -/
def steam_source_id (id : Nat) : String := Nat.repr id

/-- The source-id steam_fallback_ followed by the decimal account ID, used
when the u64 account ID parses but lies outside the plausible window. -/
def fallback_source_id (id : Nat) : String :=
  "steam_fallback_" ++ Nat.repr id

/-- The source-id steam_error_ followed by the tail of the client tag, used
when login parsing raises (the suffix is the port string of the client
connection). -/
def error_source_id (suffix : String) : String :=
  "steam_error_" ++ suffix

/-- The u64 LE account ID at a payload offset (Python struct.unpack with
format <Q on an 8-byte slice). -/
def read_u64_at (data : List Nat) (off : Nat) : Nat :=
  data.getD off 0 + 256 * data.getD (off + 1) 0 +
    65536 * data.getD (off + 2) 0 + 16777216 * data.getD (off + 3) 0 +
    4294967296 * data.getD (off + 4) 0 +
    1099511627776 * data.getD (off + 5) 0 +
    281474976710656 * data.getD (off + 6) 0 +
    72057594037927936 * data.getD (off + 7) 0

/-- The u32 LE value at a payload offset (Python struct.unpack with format
<I on a 4-byte slice). -/
def read_u32_at (data : List Nat) (off : Nat) : Nat :=
  data.getD off 0 + 256 * data.getD (off + 1) 0 +
    65536 * data.getD (off + 2) 0 + 16777216 * data.getD (off + 3) 0

/-- The parsing block of handle_login_service: returns the protocol
version, source-id and access-token bytes, or none where the Python code
raises ValueError (payload shorter than 14 bytes, or no access-token bytes
remaining after offset 14).  The redundant second lower-bound check on the
account ID in the source is subsumed by the first range check and changes
nothing. -/
def parse_login (data : List Nat) : Option (Nat × String × List Nat) :=
  if data.length < 14 then none
  else
    let protocol_version := data.getD 1 0
    let steam_id := read_u64_at data 6
    let remaining := data.length - 14
    if remaining = 0 then none
    else
      let source_id :=
        if steam_id < steam_id_min ∨ steam_id_max < steam_id then
          fallback_source_id steam_id
        else steam_source_id steam_id
      let token :=
        if 4 ≤ remaining then
          let l := read_u32_at data 14
          if 0 < l ∧ l < remaining ∧ l < 10000 then (data.drop 18).take l
          else data.drop 14
        else data.drop 14
      some (protocol_version, source_id, token)

/-- The source-id the handler resolves against the identity store: the
parsed one on success, the steam_error_ fallback on a parse failure. -/
def login_source_of (data : List Nat) (suffix : String) : String :=
  match parse_login data with
  | some p => p.2.1
  | none => error_source_id suffix

/-- The access token the handler stores: the parsed hex blob on success,
the synthesized fallback token derived from the raw payload on a parse
failure. -/
def login_token_of (data : List Nat) : AccessToken :=
  match parse_login data with
  | some p => .hexTok p.2.2
  | none => .fbTok data

/-- Model of handle_login_service from Server.py: parse (with fallback),
resolve the identity, and emit the framed status-0 success reply carrying
the resolved player-id, user-state and access-level.  (The identity store
is total in this model, so the create_login_error_response branch guarded
by a database exception is unreachable.) -/
def handle_login_service (data : List Nat) (rpc_id : Nat) (suffix : String)
    (now : Nat) (db : DB) : List Nat × DB :=
  let r := get_or_create_user db now ("Steam") (login_source_of data suffix)
    (login_token_of data)
  (login_success_response rpc_id r.pid r.user.user_state r.user.access_level,
    r.db)

/-! ## Service dispatcher (process_tcp_message) -/

/-- The service IDs the dispatcher recognises (Login=100 .. Player=109). -/
def known_service_ids : List Nat :=
  [100, 101, 102, 103, 104, 105, 106, 107, 108, 109]

/-- The service-ID and message-offset selection of process_tcp_message:
byte 2 is checked first; if it is a known service ID the two-byte wrapper
skip is applied, otherwise byte 0 is used when it is known, otherwise
byte 2 with the skip. -/
def select_service (data : List Nat) : Nat × Nat :=
  let potential_service_id := data.getD 2 0
  let first_byte_service_id := data.getD 0 0
  if potential_service_id ∈ known_service_ids then (potential_service_id, 2)
  else if first_byte_service_id ∈ known_service_ids then
    (first_byte_service_id, 0)
  else (potential_service_id, 2)

/-- Model of handle_service_game from Server.py: every branch (short data,
Subscribe with function 0, unknown function) returns empty bytes. -/
def handle_service_game (data : List Nat) : List Nat :=
  if data.length < 2 then []
  else if data.getD 1 0 = 0 then []
  else []

/-- Result of processing one received TCP chunk: the reply bytes (empty
meaning nothing is sent, matching the truthiness test in the caller), the
identified service ID, and the (possibly updated) database. -/
structure ProcResult where
  resp : List Nat
  service : Nat
  db : DB
deriving DecidableEq

/-- Model of process_tcp_message from Server.py: refuse chunks shorter
than 3 bytes, select the service ID and wrapper offset, read the RPCID u16
at offset + 1, slice the payload at offset + 3, and dispatch to the login
handler (100), ServiceGame (108), or the generic handler (everything else,
known or not). -/
def process_tcp_message (data : List Nat) (suffix : String) (now : Nat)
    (db : DB) : ProcResult :=
  if data.length < 3 then ⟨[], 0, db⟩
  else
    let sel := select_service data
    let service_id := sel.1
    let message_offset := sel.2
    let rpc_id_offset := message_offset + 1
    let rpc_id :=
      if rpc_id_offset + 2 ≤ data.length then
        data.getD rpc_id_offset 0 + 256 * data.getD (rpc_id_offset + 1) 0
      else 0
    let actual_data := data.drop message_offset
    let payload_data := actual_data.drop 3
    if service_id = 100 then
      let r := handle_login_service payload_data rpc_id suffix now db
      ⟨r.1, 100, r.2⟩
    else if service_id = 108 then
      ⟨handle_service_game actual_data, 108, db⟩
    else
      ⟨handle_generic_service service_id rpc_id payload_data, service_id, db⟩

/-- One iteration of the receive loop of handle_tcp_client: an empty read
breaks out of the loop (the socket is then closed in the cleanup block);
any non-empty chunk is processed, its non-empty reply (if any) sent, and
the loop continues — the connection is never closed after a processed
message. -/
structure StepResult where
  sent : List Nat
  closed : Bool
  db : DB
deriving DecidableEq

def connection_step (data : List Nat) (suffix : String) (now : Nat)
    (db : DB) : StepResult :=
  if data = [] then ⟨[], true, db⟩
  else
    let r := process_tcp_message data suffix now db
    ⟨r.resp, false, r.db⟩

/-! ## Reference decoders and invariants used by the claims -/

/-- Decoded form of the login reply header and body. -/
structure LoginReplyFields where
  service : Nat
  func : Nat
  rpc_id : Nat
  status : Nat
  player_id : Nat
  user_state : Nat
  access_level : Nat
deriving DecidableEq

/-- Reference decoder for the login success reply payload: ServiceID u8,
FunctionID u8, RPCID u16 LE, status u8, player-id u32 LE, user-state u8,
access-level u8. -/
def read_login_reply (bs : List Nat) :
    Option (LoginReplyFields × List Nat) :=
  (read_u8 bs).bind fun p0 =>
  (read_u8 p0.2).bind fun p1 =>
  (read_u16 p1.2).bind fun p2 =>
  (read_u8 p2.2).bind fun p3 =>
  (read_u32 p3.2).bind fun p4 =>
  (read_u8 p4.2).bind fun p5 =>
  (read_u8 p5.2).map fun p6 =>
  (⟨p0.1, p1.1, p2.1, p3.1, p4.1, p5.1, p6.1⟩, p6.2)

/-- The status byte of a framed login reply (payload index 4). -/
def login_response_status (resp : List Nat) : Option Nat :=
  match read_varint resp with
  | some p => p.2.get? 4
  | none => none

theorem login_response_status_success (rpc_id pid us al : Nat) :
    login_response_status (login_success_response rpc_id pid us al) =
      some 0 := by
  unfold login_response_status login_success_response frame
  rw [read_encode_varint]
  simp [login_success_content, pack_u16, pack_u32, List.get?]

/-- Two rows with distinct (source-type, source-id) keys. -/
def user_key_prop (a b : UserRec) : Prop :=
  ¬(a.source_type = b.source_type ∧ a.source_id = b.source_id)

/-- The store holds at most one row per (source-type, source-id) pair. -/
def unique_keys (db : DB) : Prop := db.users.Pairwise user_key_prop

/-- Rows that agree on everything except last-login and token hash. -/
def same_except_login (v w : UserRec) : Prop :=
  w.player_id = v.player_id ∧ w.source_type = v.source_type ∧
  w.source_id = v.source_id ∧ w.user_state = v.user_state ∧
  w.access_level = v.access_level ∧ w.created_at = v.created_at

theorem update_login_row_key (stype sid : String) (pid now : Nat)
    (tok : AccessToken) (u : UserRec) :
    user_key_matches stype sid (update_login_row pid now tok u) =
      user_key_matches stype sid u := by
  unfold update_login_row user_key_matches
  split <;> rfl

theorem update_login_row_same (pid now : Nat) (tok : AccessToken)
    (u : UserRec) : same_except_login u (update_login_row pid now tok u) := by
  unfold update_login_row same_except_login
  split <;> simp

theorem update_login_row_pid (pid now : Nat) (tok : AccessToken)
    (u : UserRec) : (update_login_row pid now tok u).player_id =
      u.player_id := by
  unfold update_login_row
  split <;> rfl

theorem update_login_row_stype (pid now : Nat) (tok : AccessToken)
    (u : UserRec) :
    (update_login_row pid now tok u).source_type = u.source_type := by
  unfold update_login_row
  split <;> rfl

theorem update_login_row_sid (pid now : Nat) (tok : AccessToken)
    (u : UserRec) :
    (update_login_row pid now tok u).source_id = u.source_id := by
  unfold update_login_row
  split <;> rfl

theorem find?_map_pres {α : Type} (f : α → α) (p : α → Bool)
    (hf : ∀ x, p (f x) = p x) : ∀ l : List α,
    (l.map f).find? p = (l.find? p).map f := by
  intro l
  induction l with
  | nil => rfl
  | cons a t ih =>
    by_cases h : p a
    · rw [List.map_cons, List.find?_cons_of_pos _ (by rw [hf]; exact h),
        List.find?_cons_of_pos _ h, Option.map_some']
    · rw [List.map_cons,
        List.find?_cons_of_neg _ (by rw [hf]; exact h),
        List.find?_cons_of_neg _ h, ih]

theorem find?_append_none {α : Type} (p : α → Bool) (l1 l2 : List α)
    (h : l1.find? p = none) : (l1 ++ l2).find? p = l2.find? p := by
  induction l1 with
  | nil => rfl
  | cons a t ih =>
    by_cases hpa : p a = true
    · rw [List.find?_cons_of_pos _ hpa] at h
      exact absurd h (by simp)
    · rw [List.find?_cons_of_neg _ hpa] at h
      rw [List.cons_append, List.find?_cons_of_neg _ hpa]
      exact ih h

theorem forall2_self_map {α : Type} (r : α → α → Prop) (g : α → α)
    (h : ∀ x, r x (g x)) : ∀ l : List α, List.Forall₂ r l (l.map g) := by
  intro l
  induction l with
  | nil => exact List.Forall₂.nil
  | cons a t ih => exact List.Forall₂.cons (h a) ih

theorem pairwise_map_update (l : List UserRec) (pid now : Nat)
    (tok : AccessToken) (h : l.Pairwise user_key_prop) :
    (l.map (update_login_row pid now tok)).Pairwise user_key_prop := by
  refine List.Pairwise.map _ (fun a b hab => ?_) h
  unfold user_key_prop at hab ⊢
  rw [update_login_row_stype, update_login_row_stype, update_login_row_sid,
    update_login_row_sid]
  exact hab

theorem goc_hit (dbx : DB) (now : Nat) (stype sid : String)
    (tok : AccessToken) (w : UserRec)
    (hw : dbx.users.find? (user_key_matches stype sid) = some w) :
    get_or_create_user dbx now stype sid tok =
      ⟨w.player_id, w,
        { dbx with
          users := dbx.users.map (update_login_row w.player_id now tok) }⟩ := by
  unfold get_or_create_user
  rw [hw]

theorem goc_first (dbx : DB) (now : Nat) (stype sid : String)
    (tok : AccessToken) (h : unique_keys dbx) :
    unique_keys (get_or_create_user dbx now stype sid tok).db ∧
    ∃ w, (get_or_create_user dbx now stype sid tok).db.users.find?
        (user_key_matches stype sid) = some w ∧
      w.player_id = (get_or_create_user dbx now stype sid tok).pid := by
  cases hfind : dbx.users.find? (user_key_matches stype sid) with
  | some u =>
    rw [goc_hit dbx now stype sid tok u hfind]
    refine ⟨pairwise_map_update _ _ _ _ h,
      update_login_row u.player_id now tok u, ?_,
      update_login_row_pid _ _ _ _⟩
    rw [find?_map_pres _ _
      (fun x => update_login_row_key stype sid u.player_id now tok x),
      hfind, Option.map_some']
  | none =>
    unfold get_or_create_user
    rw [hfind]
    dsimp only
    constructor
    · unfold unique_keys at h ⊢
      rw [List.pairwise_append]
      refine ⟨h, List.pairwise_singleton _ _, ?_⟩
      intro a ha b hb
      rw [List.mem_singleton] at hb
      subst hb
      have hnp := List.find?_eq_none.mp hfind a ha
      unfold user_key_prop
      simp only [user_key_matches, Bool.and_eq_true, beq_iff_eq] at hnp ⊢
      exact hnp
    · refine ⟨⟨dbx.next_id, stype, sid, tok, 1, 0, now, now⟩, ?_, rfl⟩
      rw [find?_append_none _ _ _ hfind, List.find?_cons_of_pos]
      simp [user_key_matches]

/-! ## Claims -/

/-- Claim C1, counterexample.  The claim states that every byte sequence the
server writes on the TCP game channel, including generic service replies,
begins with a VarInt equal to the length of the remaining bytes.  It is
false: the generic success reply for RPCID 0 is the three raw bytes 0 0 0
(no VarInt prefix: the leading 0 would announce an empty payload but two
bytes follow), and the generic error reply is likewise unprefixed. -/
theorem C1_generic_reply_unframed :
    is_valid_frame (handle_generic_service 104 0 []) = false ∧
    is_valid_frame
      (create_error_response 0 (str_bytes ("Service error: x"))) = false := by
  decide

/-- Claim C1, amended.  The catalogue push, the login success reply and the
login error reply each begin with a VarInt whose decoded value equals the
byte length of the remaining bytes of that write; generic service replies
and generic error replies are written without any VarInt length prefix. -/
theorem C1_framed_writes (star_players : List Nat)
    (rpc_id pid us al : Nat) (msg : List Nat)
    (h1 : rpc_id < 65536) (h2 : pid < 4294967296) (h3 : us < 256)
    (h4 : al < 256) (h5 : ∀ s ∈ star_players, s < 4294967296) :
    is_valid_frame (cards_message star_players) = true ∧
    is_valid_frame (login_success_response rpc_id pid us al) = true ∧
    is_valid_frame (create_login_error_response rpc_id msg) = true :=
  ⟨is_valid_frame_frame _, is_valid_frame_frame _, is_valid_frame_frame _⟩

/-- Witness for C1_framed_writes at concrete inputs. -/
theorem C1_framed_writes_witness :
    (0 < 65536 ∧ 1 < 4294967296 ∧ 1 < 256 ∧ 0 < 256 ∧
      ∀ s ∈ ([1] : List Nat), s < 4294967296) ∧
    (is_valid_frame (cards_message [1]) = true ∧
     is_valid_frame (login_success_response 0 1 1 0) = true ∧
     is_valid_frame (create_login_error_response 0 []) = true) :=
  ⟨by decide,
   C1_framed_writes [1] 0 1 1 0 [] (by decide) (by decide) (by decide)
     (by decide) (by decide)⟩

/-- Claim C2, counterexample.  The claim states that the inbound bytes
FF FF FF FF FF make the server emit nothing and close the socket.  It is
false: the dispatcher has no frame decoding on the inbound path, treats the
chunk as a message for unknown service 255 with RPCID 65535, replies with
the three bytes FF FF 00, and leaves the connection open. -/
theorem C2_malformed_frame_reply :
    (connection_step [255, 255, 255, 255, 255] ("s") 0 db0).sent =
      [255, 255, 0] ∧
    (connection_step [255, 255, 255, 255, 255] ("s") 0 db0).closed =
      false := by
  decide

/-- Claim C2, amended.  The receive loop never closes the connection after
a non-empty chunk, however malformed; chunks shorter than 3 bytes get no
reply but also leave the connection open; only an empty read closes the
socket.  In particular FF FF FF FF FF is answered (see the
counterexample), not dropped. -/
theorem C2_connection_behavior (data : List Nat) (suffix : String)
    (now : Nat) (db : DB) (h : data ≠ []) :
    (connection_step data suffix now db).closed = false ∧
    (data.length < 3 → (connection_step data suffix now db).sent = []) ∧
    (connection_step [] suffix now db).closed = true := by
  refine ⟨by simp [connection_step, h], ?_, by simp [connection_step]⟩
  intro hlen
  simp [connection_step, h, process_tcp_message, hlen]

/-- Witness for C2_connection_behavior at a concrete short chunk. -/
theorem C2_connection_behavior_witness :
    ([1] : List Nat) ≠ [] ∧
    ((connection_step [1] ("s") 0 db0).closed = false ∧
     (([1] : List Nat).length < 3 →
       (connection_step [1] ("s") 0 db0).sent = []) ∧
     (connection_step [] ("s") 0 db0).closed = true) :=
  ⟨by decide, C2_connection_behavior [1] ("s") 0 db0 (by decide)⟩

/-- Claim C3, counterexample.  The claim states that whenever byte 0 of a
message is a known service ID the dispatcher uses it and parses at offset
0, regardless of byte 2.  It is false: for the message 100 0 104 0 0 both
byte 0 (100) and byte 2 (104) are known service IDs, and the dispatcher
picks byte 2 with the two-byte wrapper skip. -/
theorem C3_byte0_not_preferred :
    select_service [100, 0, 104, 0, 0] = (104, 2) ∧
    select_service [100, 0, 104, 0, 0] ≠ (100, 0) := by
  decide

/-- Claim C3, amended.  The dispatcher checks byte 2 first: whenever byte 2
is a known service ID the two-byte wrapper skip is applied, even when byte
0 is also a known service ID; byte 0 is used at offset 0 only when byte 2
is not known; when neither is known byte 2 is used with the skip. -/
theorem C3_dispatch_priority (data : List Nat) (h : 3 ≤ data.length) :
    (data.getD 2 0 ∈ known_service_ids →
      select_service data = (data.getD 2 0, 2)) ∧
    (data.getD 2 0 ∉ known_service_ids →
      data.getD 0 0 ∈ known_service_ids →
      select_service data = (data.getD 0 0, 0)) ∧
    (data.getD 2 0 ∉ known_service_ids →
      data.getD 0 0 ∉ known_service_ids →
      select_service data = (data.getD 2 0, 2)) := by
  unfold select_service
  dsimp only
  refine ⟨fun h2 => by rw [if_pos h2],
    fun h2 h0 => by rw [if_neg h2, if_pos h0],
    fun h2 h0 => by rw [if_neg h2, if_neg h0]⟩

/-- Witness for C3_dispatch_priority at a concrete message. -/
theorem C3_dispatch_priority_witness :
    3 ≤ ([0, 0, 104] : List Nat).length ∧
    (([0, 0, 104] : List Nat).getD 2 0 ∈ known_service_ids →
      select_service [0, 0, 104] = (([0, 0, 104] : List Nat).getD 2 0, 2)) ∧
    select_service [0, 0, 104] = (104, 2) :=
  ⟨by decide, (C3_dispatch_priority [0, 0, 104] (by decide)).1,
   ((C3_dispatch_priority [0, 0, 104] (by decide)).1 (by decide)).trans
     (by decide)⟩

/-- Claim C4, counterexample.  The claim states that a login payload of
exactly 14 bytes parses successfully with an empty access token and the
handler does not take the parse-failure fallback.  It is false: with 14
bytes no access-token bytes remain after offset 14, the parser raises, and
the handler resolves the identity under the steam_error_ fallback
source-id (while still emitting a status-0 success reply). -/
theorem C4_fourteen_byte_parse_fails :
    parse_login (List.replicate 14 0) = none ∧
    login_source_of (List.replicate 14 0) ("7") = error_source_id ("7") ∧
    (handle_login_service (List.replicate 14 0) 5 ("7") 0 db0).1 =
      login_success_response 5 1 1 0 := by
  refine ⟨by decide, by decide, by rfl⟩

/-- Claim C4, amended.  A login payload of exactly 14 bytes does not parse:
the code raises because no access-token bytes remain, falls back to the
synthesized steam_error_ source-id, and still proceeds to identity
resolution and a framed status-0 success reply.  (Only payloads of length
at least 15 can parse.) -/
theorem C4_fourteen_byte_fallback (data : List Nat) (rpc_id : Nat)
    (suffix : String) (now : Nat) (db : DB) (h : data.length = 14) :
    parse_login data = none ∧
    login_source_of data suffix = error_source_id suffix ∧
    login_response_status
      (handle_login_service data rpc_id suffix now db).1 = some 0 := by
  have hp : parse_login data = none := by
    unfold parse_login
    simp [h]
  refine ⟨hp, ?_, ?_⟩
  · unfold login_source_of
    rw [hp]
  · unfold handle_login_service
    exact login_response_status_success _ _ _ _

/-- Witness for C4_fourteen_byte_fallback at a concrete 14-byte payload. -/
theorem C4_fourteen_byte_fallback_witness :
    (List.replicate 14 1).length = 14 ∧
    (parse_login (List.replicate 14 1) = none ∧
     login_source_of (List.replicate 14 1) ("9") = error_source_id ("9") ∧
     login_response_status
       (handle_login_service (List.replicate 14 1) 2 ("9") 0 db0).1 =
       some 0) :=
  ⟨by decide, C4_fourteen_byte_fallback (List.replicate 14 1) 2 ("9") 0 db0
    (by decide)⟩

/-- Claim C5, counterexample.  The claim states that every login payload
that fails to parse is resolved under a source-id of the form
steam_fallback_ followed by the raw value.  It is false: the parse-failure
fallback uses the prefix steam_error_ (steam_fallback_ is used only in the
successful-parse path for out-of-range account IDs), and no string of the
steam_fallback_ form equals the one produced here. -/
theorem C5_fallback_name_mismatch :
    parse_login [1, 2, 3] = none ∧
    login_source_of [1, 2, 3] ("42") = ("steam_error_42" : String) ∧
    ¬ ∃ raw : String, login_source_of [1, 2, 3] ("42") =
      ("steam_fallback_" : String) ++ raw := by
  refine ⟨by decide, by decide, ?_⟩
  rintro ⟨raw, hr⟩
  have h1 : (login_source_of [1, 2, 3] ("42")).length = 14 := by decide
  rw [hr, String.length_append] at h1
  have h2 : ("steam_fallback_" : String).length = 15 := by decide
  omega

/-- Claim C5, amended.  Every login payload that fails to parse is resolved
under the synthesized source-id steam_error_ followed by the connection
suffix (not steam_fallback_), with the fallback token, and the handler
continues with identity resolution and a framed status-0 success reply
rather than rejecting the connection. -/
theorem C5_parse_failure_source (data : List Nat) (rpc_id : Nat)
    (suffix : String) (now : Nat) (db : DB) (h : parse_login data = none) :
    login_source_of data suffix = error_source_id suffix ∧
    login_token_of data = .fbTok data ∧
    login_response_status
      (handle_login_service data rpc_id suffix now db).1 = some 0 := by
  refine ⟨?_, ?_, ?_⟩
  · unfold login_source_of
    rw [h]
  · unfold login_token_of
    rw [h]
  · unfold handle_login_service
    exact login_response_status_success _ _ _ _

/-- Witness for C5_parse_failure_source at a concrete failing payload. -/
theorem C5_parse_failure_source_witness :
    parse_login [1, 2, 3] = none ∧
    (login_source_of [1, 2, 3] ("8") = error_source_id ("8") ∧
     login_token_of [1, 2, 3] = .fbTok [1, 2, 3] ∧
     login_response_status
       (handle_login_service [1, 2, 3] 4 ("8") 0 db0).1 = some 0) :=
  ⟨by decide, C5_parse_failure_source [1, 2, 3] 4 ("8") 0 db0 (by decide)⟩

/-- Claim C6, confirmed.  For every login request that resolves an identity
successfully, the frame payload of the reply is exactly ServiceID 100,
FunctionID 0, the echoed RPCID as u16 LE, status 0, the player-id as u32
LE, the user-state byte and the access-level byte — 11 bytes in total; for
a fresh default user (user-state 1, access-level 0) the bytes are
100 0 RR RR 0 PP PP PP PP 1 0. -/
theorem C6_login_reply_shape (rpc_id player_id user_state access_level : Nat)
    (h1 : rpc_id < 65536) (h2 : player_id < 4294967296)
    (h3 : user_state < 256) (h4 : access_level < 256) :
    read_login_reply
        (login_success_content rpc_id player_id user_state access_level) =
      some (⟨100, 0, rpc_id, 0, player_id, user_state, access_level⟩, []) ∧
    (login_success_content rpc_id player_id user_state
      access_level).length = 11 ∧
    login_success_content rpc_id player_id 1 0 =
      [100, 0, rpc_id % 256, rpc_id / 256 % 256, 0, player_id % 256,
       player_id / 256 % 256, player_id / 65536 % 256,
       player_id / 16777216 % 256, 1, 0] := by
  refine ⟨?_, ?_, ?_⟩
  · unfold login_success_content read_login_reply
    simp [read_u8, read_pack_u16 rpc_id h1, read_pack_u32 player_id h2]
  · simp [login_success_content, pack_u16, pack_u32]
  · simp [login_success_content, pack_u16, pack_u32]

/-- Witness for C6_login_reply_shape at concrete inputs. -/
theorem C6_login_reply_shape_witness :
    (5 < 65536 ∧ 7 < 4294967296 ∧ 1 < 256 ∧ 0 < 256) ∧
    (read_login_reply (login_success_content 5 7 1 0) =
       some (⟨100, 0, 5, 0, 7, 1, 0⟩, []) ∧
     (login_success_content 5 7 1 0).length = 11 ∧
     login_success_content 5 7 1 0 =
       [100, 0, 5 % 256, 5 / 256 % 256, 0, 7 % 256, 7 / 256 % 256,
        7 / 65536 % 256, 7 / 16777216 % 256, 1, 0]) :=
  ⟨by decide,
   C6_login_reply_shape 5 7 1 0 (by decide) (by decide) (by decide)
     (by decide)⟩

/-- Claim C7, confirmed.  The Reward, Price and Bonuses encoders emit no
length prefix and their output is exactly consumed, with no trailing
slack, by reference decoders reading the documented field order: Reward as
a bit-field byte with the money bit set (always 0x80), coins i32,
skill-tickets i32, XP i32, AP i32, VarInt item count and one u32 CRC32
hash per item (string items hashed); Price as a bit-field byte whose high
bit is set iff a sale is present, coins i32, skill-tickets i32, then the
f32 sale only if present; Bonuses as five f32 rates then seven i32
values. -/
theorem C7_record_roundtrips
    (coins skill_tickets xp ap : Int) (items : List RewardItem)
    (pcoins pskill : Int) (sale : Option Nat)
    (r1 r2 r3 r4 r5 : Nat) (v1 v2 v3 v4 v5 v6 v7 : Int)
    (hr : (-2147483648 ≤ coins ∧ coins < 2147483648) ∧
      (-2147483648 ≤ skill_tickets ∧ skill_tickets < 2147483648) ∧
      (-2147483648 ≤ xp ∧ xp < 2147483648) ∧
      (-2147483648 ≤ ap ∧ ap < 2147483648) ∧
      ∀ i ∈ items, reward_item_hash i < 4294967296)
    (hp : (-2147483648 ≤ pcoins ∧ pcoins < 2147483648) ∧
      (-2147483648 ≤ pskill ∧ pskill < 2147483648) ∧
      ∀ b ∈ sale, b < 4294967296)
    (hb : (r1 < 4294967296 ∧ r2 < 4294967296 ∧ r3 < 4294967296 ∧
        r4 < 4294967296 ∧ r5 < 4294967296) ∧
      (-2147483648 ≤ v1 ∧ v1 < 2147483648) ∧
      (-2147483648 ≤ v2 ∧ v2 < 2147483648) ∧
      (-2147483648 ≤ v3 ∧ v3 < 2147483648) ∧
      (-2147483648 ≤ v4 ∧ v4 < 2147483648) ∧
      (-2147483648 ≤ v5 ∧ v5 < 2147483648) ∧
      (-2147483648 ≤ v6 ∧ v6 < 2147483648) ∧
      (-2147483648 ≤ v7 ∧ v7 < 2147483648)) :
    read_reward (create_reward_data coins skill_tickets xp ap items) =
      some (⟨128, coins, skill_tickets, xp, ap,
        items.map reward_item_hash⟩, []) ∧
    read_price (create_price_data pcoins pskill sale) =
      some (⟨if sale = none then 0 else 128, pcoins, pskill, sale⟩, []) ∧
    read_bonuses (create_bonuses_data r1 r2 r3 r4 r5 v1 v2 v3 v4 v5 v6 v7) =
      some (⟨r1, r2, r3, r4, r5, v1, v2, v3, v4, v5, v6, v7⟩, []) := by
  obtain ⟨⟨hc1, hc2⟩, ⟨hs1, hs2⟩, ⟨hx1, hx2⟩, ⟨ha1, ha2⟩, hi⟩ := hr
  obtain ⟨⟨hp1, hp2⟩, ⟨hp3, hp4⟩, hp5⟩ := hp
  obtain ⟨⟨hb1, hb2, hb3, hb4, hb5⟩, ⟨hv1a, hv1b⟩, ⟨hv2a, hv2b⟩,
    ⟨hv3a, hv3b⟩, ⟨hv4a, hv4b⟩, ⟨hv5a, hv5b⟩, ⟨hv6a, hv6b⟩,
    ⟨hv7a, hv7b⟩⟩ := hb
  refine ⟨?_, ?_, ?_⟩
  · have := reward_roundtrip coins skill_tickets xp ap items hc1 hc2 hs1
      hs2 hx1 hx2 ha1 ha2 hi []
    simpa using this
  · have := price_roundtrip pcoins pskill sale hp1 hp2 hp3 hp4 hp5 []
    simpa using this
  · have := bonuses_roundtrip r1 r2 r3 r4 r5 v1 v2 v3 v4 v5 v6 v7 hb1 hb2
      hb3 hb4 hb5 hv1a hv1b hv2a hv2b hv3a hv3b hv4a hv4b hv5a hv5b hv6a
      hv6b hv7a hv7b []
    simpa using this

/-- Witness for C7_record_roundtrips at concrete inputs. -/
theorem C7_record_roundtrips_witness :
    (((-2147483648 ≤ (1 : Int) ∧ (1 : Int) < 2147483648) ∧
      (-2147483648 ≤ (2 : Int) ∧ (2 : Int) < 2147483648) ∧
      (-2147483648 ≤ (3 : Int) ∧ (3 : Int) < 2147483648) ∧
      (-2147483648 ≤ (4 : Int) ∧ (4 : Int) < 2147483648) ∧
      ∀ i ∈ [RewardItem.numItem 7], reward_item_hash i < 4294967296) ∧
     ((-2147483648 ≤ (5 : Int) ∧ (5 : Int) < 2147483648) ∧
      (-2147483648 ≤ (6 : Int) ∧ (6 : Int) < 2147483648) ∧
      ∀ b ∈ some 9, b < 4294967296) ∧
     (((1 : Nat) < 4294967296 ∧ (2 : Nat) < 4294967296 ∧
       (3 : Nat) < 4294967296 ∧ (4 : Nat) < 4294967296 ∧
       (5 : Nat) < 4294967296) ∧
      (-2147483648 ≤ (1 : Int) ∧ (1 : Int) < 2147483648) ∧
      (-2147483648 ≤ (2 : Int) ∧ (2 : Int) < 2147483648) ∧
      (-2147483648 ≤ (3 : Int) ∧ (3 : Int) < 2147483648) ∧
      (-2147483648 ≤ (4 : Int) ∧ (4 : Int) < 2147483648) ∧
      (-2147483648 ≤ (5 : Int) ∧ (5 : Int) < 2147483648) ∧
      (-2147483648 ≤ (6 : Int) ∧ (6 : Int) < 2147483648) ∧
      (-2147483648 ≤ (7 : Int) ∧ (7 : Int) < 2147483648))) ∧
    (read_reward (create_reward_data 1 2 3 4 [RewardItem.numItem 7]) =
       some (⟨128, 1, 2, 3, 4,
         List.map reward_item_hash [RewardItem.numItem 7]⟩, []) ∧
     read_price (create_price_data 5 6 (some 9)) =
       some (⟨if some 9 = none then 0 else 128, 5, 6, some 9⟩, []) ∧
     read_bonuses (create_bonuses_data 1 2 3 4 5 1 2 3 4 5 6 7) =
       some (⟨1, 2, 3, 4, 5, 1, 2, 3, 4, 5, 6, 7⟩, [])) :=
  ⟨⟨by decide, by decide, by decide⟩,
   C7_record_roundtrips 1 2 3 4 [RewardItem.numItem 7] 5 6 (some 9)
     1 2 3 4 5 1 2 3 4 5 6 7 (by decide) (by decide) (by decide)⟩

/-- Claim C8, confirmed.  For every non-negative integer n below 2 to the
32, decoding the output of the VarInt encoder (7 data bits per byte,
little-endian, high bit set on all but the terminal byte) yields n again
with nothing left over, and the encoding is at most 5 bytes long. -/
theorem C8_varint_roundtrip (n : Nat) (h : n < 4294967296) :
    read_varint (encode_varint n) = some (n, []) ∧
    (encode_varint n).length ≤ 5 := by
  constructor
  · simpa using read_encode_varint n []
  · refine encode_varint_length 5 n ?_ (by omega)
    have hp : (128 : Nat) ^ 5 = 34359738368 := by norm_num
    omega

/-- Witness for C8_varint_roundtrip at a concrete value. -/
theorem C8_varint_roundtrip_witness :
    300 < 4294967296 ∧
    (read_varint (encode_varint 300) = some (300, []) ∧
     (encode_varint 300).length ≤ 5) :=
  ⟨by decide, C8_varint_roundtrip 300 (by decide)⟩

/-- Claim C9, confirmed.  If the store holds at most one row per
(source-type, source-id) pair, then after a get-or-create call it still
does; two successive get-or-create calls with the same pair return the
same player-id; and the second call changes no field of any row other
than last-login and the token hash, and leaves the id counter and the
player-name table untouched. -/
theorem C9_identity_store (db : DB) (now1 now2 : Nat) (stype sid : String)
    (tok1 tok2 : AccessToken) (h : unique_keys db) :
    unique_keys (get_or_create_user db now1 stype sid tok1).db ∧
    (get_or_create_user (get_or_create_user db now1 stype sid tok1).db
      now2 stype sid tok2).pid =
      (get_or_create_user db now1 stype sid tok1).pid ∧
    List.Forall₂ same_except_login
      (get_or_create_user db now1 stype sid tok1).db.users
      (get_or_create_user (get_or_create_user db now1 stype sid tok1).db
        now2 stype sid tok2).db.users ∧
    (get_or_create_user (get_or_create_user db now1 stype sid tok1).db
      now2 stype sid tok2).db.next_id =
      (get_or_create_user db now1 stype sid tok1).db.next_id ∧
    (get_or_create_user (get_or_create_user db now1 stype sid tok1).db
      now2 stype sid tok2).db.names =
      (get_or_create_user db now1 stype sid tok1).db.names ∧
    unique_keys (get_or_create_user (get_or_create_user db now1 stype sid
      tok1).db now2 stype sid tok2).db := by
  obtain ⟨h1, w, hw, hwpid⟩ := goc_first db now1 stype sid tok1 h
  have h2 := goc_hit (get_or_create_user db now1 stype sid tok1).db now2
    stype sid tok2 w hw
  rw [h2]
  refine ⟨h1, hwpid, ?_, rfl, rfl, ?_⟩
  · exact forall2_self_map _ _ (fun x => update_login_row_same _ _ _ x) _
  · exact pairwise_map_update _ _ _ _ h1

/-- Witness for C9_identity_store: two logins of the same Steam account on
a fresh database. -/
theorem C9_identity_store_witness :
    unique_keys db0 ∧
    (unique_keys (get_or_create_user db0 0 ("Steam") ("1") (.hexTok [])).db ∧
     (get_or_create_user
        (get_or_create_user db0 0 ("Steam") ("1") (.hexTok [])).db
        1 ("Steam") ("1") (.hexTok [2])).pid =
       (get_or_create_user db0 0 ("Steam") ("1") (.hexTok [])).pid ∧
     List.Forall₂ same_except_login
       (get_or_create_user db0 0 ("Steam") ("1") (.hexTok [])).db.users
       (get_or_create_user
         (get_or_create_user db0 0 ("Steam") ("1") (.hexTok [])).db
         1 ("Steam") ("1") (.hexTok [2])).db.users ∧
     (get_or_create_user
        (get_or_create_user db0 0 ("Steam") ("1") (.hexTok [])).db
        1 ("Steam") ("1") (.hexTok [2])).db.next_id =
       (get_or_create_user db0 0 ("Steam") ("1") (.hexTok [])).db.next_id ∧
     (get_or_create_user
        (get_or_create_user db0 0 ("Steam") ("1") (.hexTok [])).db
        1 ("Steam") ("1") (.hexTok [2])).db.names =
       (get_or_create_user db0 0 ("Steam") ("1") (.hexTok [])).db.names ∧
     unique_keys (get_or_create_user
       (get_or_create_user db0 0 ("Steam") ("1") (.hexTok [])).db
       1 ("Steam") ("1") (.hexTok [2])).db) :=
  ⟨List.Pairwise.nil,
   C9_identity_store db0 0 1 ("Steam") ("1") (.hexTok []) (.hexTok [2])
     List.Pairwise.nil⟩

/-- Claim C10, confirmed.  For every login payload of length at least 15
(which therefore parses without error), if the u64 account ID at offset 6
lies outside the window from 76561197960265728 to 76561297960265728, the
identity is resolved under the synthesized source-id steam_fallback_
followed by the decimal ID instead of the plain decimal ID, and the
handler still emits a framed status-0 success reply. -/
theorem C10_invalid_steam_id_fallback (data : List Nat) (rpc_id : Nat)
    (suffix : String) (now : Nat) (db : DB) (h : 15 ≤ data.length)
    (hout : read_u64_at data 6 < steam_id_min ∨
      steam_id_max < read_u64_at data 6) :
    (∃ tok, parse_login data =
      some (data.getD 1 0, fallback_source_id (read_u64_at data 6), tok)) ∧
    login_source_of data suffix =
      fallback_source_id (read_u64_at data 6) ∧
    login_response_status
      (handle_login_service data rpc_id suffix now db).1 = some 0 := by
  have hp : ∃ tok, parse_login data =
      some (data.getD 1 0, fallback_source_id (read_u64_at data 6), tok) := by
    unfold parse_login
    rw [if_neg (show ¬ data.length < 14 by omega)]
    dsimp only
    rw [if_neg (show ¬ (data.length - 14 = 0) by omega), if_pos hout]
    exact ⟨_, rfl⟩
  obtain ⟨tok, htok⟩ := hp
  refine ⟨⟨tok, htok⟩, ?_, ?_⟩
  · unfold login_source_of
    rw [htok]
  · unfold handle_login_service
    exact login_response_status_success _ _ _ _

/-- Witness for C10_invalid_steam_id_fallback: a 15-byte payload whose
account ID is 0, far below the plausible window. -/
theorem C10_invalid_steam_id_fallback_witness :
    (15 ≤ (List.replicate 15 0).length ∧
     (read_u64_at (List.replicate 15 0) 6 < steam_id_min ∨
       steam_id_max < read_u64_at (List.replicate 15 0) 6)) ∧
    ((∃ tok, parse_login (List.replicate 15 0) =
       some ((List.replicate 15 0).getD 1 0,
         fallback_source_id (read_u64_at (List.replicate 15 0) 6), tok)) ∧
     login_source_of (List.replicate 15 0) ("3") =
       fallback_source_id (read_u64_at (List.replicate 15 0) 6) ∧
     login_response_status
       (handle_login_service (List.replicate 15 0) 6 ("3") 0 db0).1 =
       some 0) :=
  ⟨⟨by decide, by decide⟩,
   C10_invalid_steam_id_fallback (List.replicate 15 0) 6 ("3") 0 db0
     (by decide) (by decide)⟩
